import Mathlib

/-!
Shallow embedding of `drivers/phy/phy-rcar-gen3.c` (Renesas R-Car Gen3 USB
PHY driver) and verification of its specified properties.

Registers are 32-bit memory-mapped words, modelled as `Nat` values kept
below `2 ^ 32` by taking the stored value modulo `2 ^ 32` on every write.
Each driver operation is a pure function on a register state paired with a
trace of the register accesses it performs, mirroring the source's own
access primitives `readl`, `writel`, `setbits_le32`, `clrbits_le32` and
`clrsetbits_le32` (each U-Boot bit helper is a single read-modify-write of
one register).
-/

namespace RcarGen3Phy

/-- BIT(n) macro from `linux/bitops.h`: `1 << n`. -/
def BIT (n : Nat) : Nat := 2 ^ n

/-! Register byte offsets, lines 23-33 of the source. -/

def USB2_INT_ENABLE : Nat := 0x000

def USB2_USBCTR : Nat := 0x00c

def USB2_SPD_RSM_TIMSET : Nat := 0x10c

def USB2_OC_TIMSET : Nat := 0x110

def USB2_COMMCTRL : Nat := 0x600

def USB2_OBINTSTA : Nat := 0x604

def USB2_OBINTEN : Nat := 0x608

def USB2_VBCTRL : Nat := 0x60c

def USB2_LINECTRL1 : Nat := 0x610

def USB2_ADPCTRL : Nat := 0x630

/-! Bit-field constants, lines 35-69 of the source. -/

def USB2_INT_ENABLE_UCOM_INTEN : Nat := BIT 3

def USB2_INT_ENABLE_USBH_INTB_EN : Nat := BIT 2

def USB2_INT_ENABLE_USBH_INTA_EN : Nat := BIT 1

def USB2_USBCTR_PLL_RST : Nat := BIT 1

def USB2_SPD_RSM_TIMSET_INIT : Nat := 0x014e029b

def USB2_OC_TIMSET_INIT : Nat := 0x000209ab

def USB2_COMMCTRL_OTG_PERI : Nat := BIT 31

def USB2_OBINT_SESSVLDCHG : Nat := BIT 12

def USB2_OBINT_IDDIGCHG : Nat := BIT 11

def USB2_VBCTRL_DRVVBUSSEL : Nat := BIT 8

def USB2_LINECTRL1_DPRPD_EN : Nat := BIT 19

def USB2_LINECTRL1_DP_RPD : Nat := BIT 18

def USB2_LINECTRL1_DMRPD_EN : Nat := BIT 17

def USB2_LINECTRL1_DM_RPD : Nat := BIT 16

def USB2_ADPCTRL_OTGSESSVLD : Nat := BIT 20

def USB2_ADPCTRL_IDDIG : Nat := BIT 19

def USB2_ADPCTRL_IDPULLUP : Nat := BIT 5

def USB2_ADPCTRL_DRVVBUS : Nat := BIT 4

/-- All-ones 32-bit mask; `x &&& (mask32 ^^^ m)` is the `u32` computation
`x & ~m` used by `clrbits_le32` / `clrsetbits_le32`. -/
def mask32 : Nat := 2 ^ 32 - 1

/-- The ten control/status registers of the USB2 PHY block reachable from
this driver (offsets above). One 32-bit word each. -/
structure RegState where
  int_enable : Nat
  usbctr : Nat
  spd_rsm_timset : Nat
  oc_timset : Nat
  commctrl : Nat
  obintsta : Nat
  obinten : Nat
  vbctrl : Nat
  linectrl1 : Nat
  adpctrl : Nat
deriving DecidableEq, Repr

/-- Well-formedness: every register holds a 32-bit value. -/
def WF (s : RegState) : Prop :=
  s.int_enable < 2 ^ 32 ∧ s.usbctr < 2 ^ 32 ∧ s.spd_rsm_timset < 2 ^ 32 ∧
  s.oc_timset < 2 ^ 32 ∧ s.commctrl < 2 ^ 32 ∧ s.obintsta < 2 ^ 32 ∧
  s.obinten < 2 ^ 32 ∧ s.vbctrl < 2 ^ 32 ∧ s.linectrl1 < 2 ^ 32 ∧
  s.adpctrl < 2 ^ 32

instance (s : RegState) : Decidable (WF s) := by
  unfold WF; infer_instance

/-- Register-block load at a byte offset (the MMIO dispatch). -/
def readReg (s : RegState) (off : Nat) : Nat :=
  if off = USB2_INT_ENABLE then s.int_enable
  else if off = USB2_USBCTR then s.usbctr
  else if off = USB2_SPD_RSM_TIMSET then s.spd_rsm_timset
  else if off = USB2_OC_TIMSET then s.oc_timset
  else if off = USB2_COMMCTRL then s.commctrl
  else if off = USB2_OBINTSTA then s.obintsta
  else if off = USB2_OBINTEN then s.obinten
  else if off = USB2_VBCTRL then s.vbctrl
  else if off = USB2_LINECTRL1 then s.linectrl1
  else if off = USB2_ADPCTRL then s.adpctrl
  else 0

/-- Register-block store at a byte offset; the stored word is the value
modulo `2 ^ 32` (32-bit bus). -/
def writeReg (s : RegState) (off v : Nat) : RegState :=
  if off = USB2_INT_ENABLE then { s with int_enable := v % 2 ^ 32 }
  else if off = USB2_USBCTR then { s with usbctr := v % 2 ^ 32 }
  else if off = USB2_SPD_RSM_TIMSET then { s with spd_rsm_timset := v % 2 ^ 32 }
  else if off = USB2_OC_TIMSET then { s with oc_timset := v % 2 ^ 32 }
  else if off = USB2_COMMCTRL then { s with commctrl := v % 2 ^ 32 }
  else if off = USB2_OBINTSTA then { s with obintsta := v % 2 ^ 32 }
  else if off = USB2_OBINTEN then { s with obinten := v % 2 ^ 32 }
  else if off = USB2_VBCTRL then { s with vbctrl := v % 2 ^ 32 }
  else if off = USB2_LINECTRL1 then { s with linectrl1 := v % 2 ^ 32 }
  else if off = USB2_ADPCTRL then { s with adpctrl := v % 2 ^ 32 }
  else s

/-- One observable access performed by the driver: a plain register load, a
plain store, one of the three U-Boot read-modify-write helpers, or a call
into the external VBUS regulator. The recorded numbers are the offsets,
stored values and masks appearing at the call site. -/
inductive Event where
  | read (off val : Nat)
  | write (off val : Nat)
  | setbits (off set : Nat)
  | clrbits (off clr : Nat)
  | clrsetbits (off clr set : Nat)
  | regulator_set_enable (enable : Bool)
deriving DecidableEq, Repr

abbrev Trace := List Event

/-- A register state together with the access trace so far. -/
abbrev MState := RegState × Trace

/-- readl: load a register, record the value observed. -/
def readl (off : Nat) (st : MState) : Nat × MState :=
  (readReg st.1 off, (st.1, st.2 ++ [Event.read off (readReg st.1 off)]))

/-- writel(v, addr): absolute store. -/
def writel (v off : Nat) (st : MState) : MState :=
  (writeReg st.1 off v, st.2 ++ [Event.write off (v % 2 ^ 32)])

/-- setbits_le32(addr, set) = writel(readl(addr) | set, addr). -/
def setbits_le32 (off set : Nat) (st : MState) : MState :=
  (writeReg st.1 off (readReg st.1 off ||| set),
   st.2 ++ [Event.setbits off set])

/-- clrbits_le32(addr, clr) = writel(readl(addr) & ~clr, addr). -/
def clrbits_le32 (off clr : Nat) (st : MState) : MState :=
  (writeReg st.1 off (readReg st.1 off &&& (mask32 ^^^ clr)),
   st.2 ++ [Event.clrbits off clr])

/-- clrsetbits_le32(addr, clr, set) = writel((readl(addr) & ~clr) | set, addr). -/
def clrsetbits_le32 (off clr set : Nat) (st : MState) : MState :=
  (writeReg st.1 off ((readReg st.1 off &&& (mask32 ^^^ clr)) ||| set),
   st.2 ++ [Event.clrsetbits off clr set])

/-- Driver private data (`struct rcar_gen3_phy`): only the optional VBUS
regulator matters to the verified operations; the regulator itself is an
external collaborator modelled as the return code of its enable call. -/
structure rcar_gen3_phy where
  vbus_supply : Option (Bool → Int)

/-- External `regulator_set_enable` call: returns the collaborator's code,
touches no PHY register, and is recorded in the trace. -/
def regulator_set_enable (supply : Bool → Int) (enable : Bool)
    (st : MState) : Int × MState :=
  (supply enable, (st.1, st.2 ++ [Event.regulator_set_enable enable]))

/-- usb.h / generic-phy.h `enum phy_mode`; `other n` stands for any literal
value that is none of the three USB modes this driver recognises. -/
inductive PhyMode where
  | usb_host
  | usb_device
  | usb_otg
  | other (n : Nat)
deriving DecidableEq, Repr

/-- EINVAL errno. -/
def EINVAL : Int := 22

/-- rcar_gen3_phy_phy_init, source lines 77-87. -/
def rcar_gen3_phy_phy_init (st : MState) : Int × MState :=
  let st := writel 0 USB2_INT_ENABLE st
  let st := writel USB2_SPD_RSM_TIMSET_INIT USB2_SPD_RSM_TIMSET st
  let st := writel USB2_OC_TIMSET_INIT USB2_OC_TIMSET st
  (0, st)

/-- rcar_gen3_phy_phy_exit, source lines 89-96. -/
def rcar_gen3_phy_phy_exit (st : MState) : Int × MState :=
  (0, writel 0 USB2_INT_ENABLE st)

/-- rcar_gen3_phy_phy_power_on, source lines 98-113. When no VBUS supply is
configured the regulator block is skipped and control falls through to the
PLL_RST pulse; a nonzero regulator code returns early. -/
def rcar_gen3_phy_phy_power_on (priv : rcar_gen3_phy) (st : MState) :
    Int × MState :=
  let pre : Int × MState :=
    match priv.vbus_supply with
    | some supply => regulator_set_enable supply true st
    | none => (0, st)
  if pre.1 ≠ 0 then pre
  else
    let st := setbits_le32 USB2_USBCTR USB2_USBCTR_PLL_RST pre.2
    let st := clrbits_le32 USB2_USBCTR USB2_USBCTR_PLL_RST st
    (0, st)

/-- rcar_gen3_phy_phy_power_off, source lines 115-123. -/
def rcar_gen3_phy_phy_power_off (priv : rcar_gen3_phy) (st : MState) :
    Int × MState :=
  match priv.vbus_supply with
  | none => (0, st)
  | some supply => regulator_set_enable supply false st

/-- adpdevmask, source line 128. -/
def adpdevmask : Nat := USB2_ADPCTRL_IDDIG ||| USB2_ADPCTRL_OTGSESSVLD

/-- OTG one-time arming writes, source lines 134-155 (the `if (submode)`
block of rcar_gen3_phy_phy_set_mode). -/
def otg_initialization (st : MState) : MState :=
  let st := writel (USB2_INT_ENABLE_UCOM_INTEN |||
      USB2_INT_ENABLE_USBH_INTB_EN |||
      USB2_INT_ENABLE_USBH_INTA_EN) USB2_INT_ENABLE st
  let st := setbits_le32 USB2_VBCTRL USB2_VBCTRL_DRVVBUSSEL st
  let st := writel (USB2_OBINT_SESSVLDCHG ||| USB2_OBINT_IDDIGCHG)
      USB2_OBINTSTA st
  let st := setbits_le32 USB2_OBINTEN
      (USB2_OBINT_SESSVLDCHG ||| USB2_OBINT_IDDIGCHG) st
  let st := setbits_le32 USB2_ADPCTRL USB2_ADPCTRL_IDPULLUP st
  let st := clrsetbits_le32 USB2_LINECTRL1
      (USB2_LINECTRL1_DP_RPD ||| USB2_LINECTRL1_DM_RPD |||
       USB2_LINECTRL1_DPRPD_EN ||| USB2_LINECTRL1_DMRPD_EN)
      (USB2_LINECTRL1_DPRPD_EN ||| USB2_LINECTRL1_DMRPD_EN) st
  st

/-- HOST terminal writes, source lines 164-168. -/
def host_mode_writes (st : MState) : MState :=
  let st := clrbits_le32 USB2_COMMCTRL USB2_COMMCTRL_OTG_PERI st
  let st := setbits_le32 USB2_LINECTRL1
      (USB2_LINECTRL1_DP_RPD ||| USB2_LINECTRL1_DM_RPD) st
  let st := setbits_le32 USB2_ADPCTRL USB2_ADPCTRL_DRVVBUS st
  st

/-- DEVICE terminal writes, source lines 169-174. -/
def device_mode_writes (st : MState) : MState :=
  let st := setbits_le32 USB2_COMMCTRL USB2_COMMCTRL_OTG_PERI st
  let st := clrsetbits_le32 USB2_LINECTRL1
      (USB2_LINECTRL1_DP_RPD ||| USB2_LINECTRL1_DM_RPD)
      USB2_LINECTRL1_DM_RPD st
  let st := clrbits_le32 USB2_ADPCTRL USB2_ADPCTRL_DRVVBUS st
  st

/-- rcar_gen3_phy_phy_set_mode, source lines 125-181. The OTG branch first
performs the arming writes when `submode` is nonzero, then reads ADPCTRL
and reassigns `mode` to DEVICE or HOST; the shared tail dispatches on the
(possibly reassigned) mode, returning -EINVAL on anything unrecognised
(the source also logs via dev_err, which has no register effect). -/
def rcar_gen3_phy_phy_set_mode (mode : PhyMode) (submode : Int)
    (st : MState) : Int × MState :=
  let resolved : PhyMode × MState :=
    if mode = PhyMode.usb_otg then
      let st := if submode ≠ 0 then otg_initialization st else st
      let r := readl USB2_ADPCTRL st
      (if r.1 &&& adpdevmask = adpdevmask then PhyMode.usb_device
       else PhyMode.usb_host, r.2)
    else (mode, st)
  if resolved.1 = PhyMode.usb_host then (0, host_mode_writes resolved.2)
  else if resolved.1 = PhyMode.usb_device then
    (0, device_mode_writes resolved.2)
  else (-EINVAL, resolved.2)

/-- Pure resolution rule of the OTG branch (source lines 157-161): the mode
is a function of the single ADPCTRL word sampled by the call. -/
def otg_resolve (adpctrl : Nat) : PhyMode :=
  if adpctrl &&& adpdevmask = adpdevmask then PhyMode.usb_device
  else PhyMode.usb_host

/-- Number of plain register loads (`readl`) of a given offset in a trace. -/
def countReads (tr : Trace) (off : Nat) : Nat :=
  (tr.filter (fun e => match e with
    | Event.read o _ => o == off
    | _ => false)).length

/-- Number of occurrences of one exact event in a trace. -/
def countEv (tr : Trace) (e : Event) : Nat :=
  (tr.filter (fun x => decide (x = e))).length

/-- A concrete register state with assorted unrelated bits set, whose
ADPCTRL has both IDDIG (bit 19) and OTGSESSVLD (bit 20) set; used to
instantiate theorems with hypotheses. -/
def sDev : RegState :=
  { int_enable := 0x55, usbctr := 0x103, spd_rsm_timset := 0x7,
    oc_timset := 0x9, commctrl := 0x5, obintsta := 0x1803, obinten := 0x21,
    vbctrl := 0x42, linectrl1 := 0xf0025, adpctrl := 0x1800b1 }

/-- A concrete register state with assorted unrelated bits set in
COMMCTRL, LINECTRL1 and ADPCTRL; used to instantiate frame theorems. -/
def sHost : RegState :=
  { int_enable := 0xe, usbctr := 0x2, spd_rsm_timset := 0x014e029b,
    oc_timset := 0x000209ab, commctrl := 0x40000001, obintsta := 0x0,
    obinten := 0x1800, vbctrl := 0x100, linectrl1 := 0x81,
    adpctrl := 0x200a1 }

/-! Characterisation of the register-block dispatch at each offset. -/

theorem readReg_int_enable (s : RegState) : readReg s USB2_INT_ENABLE = s.int_enable := rfl

theorem readReg_usbctr (s : RegState) : readReg s USB2_USBCTR = s.usbctr := rfl

theorem readReg_spd_rsm_timset (s : RegState) : readReg s USB2_SPD_RSM_TIMSET = s.spd_rsm_timset := rfl

theorem readReg_oc_timset (s : RegState) : readReg s USB2_OC_TIMSET = s.oc_timset := rfl

theorem readReg_commctrl (s : RegState) : readReg s USB2_COMMCTRL = s.commctrl := rfl

theorem readReg_obintsta (s : RegState) : readReg s USB2_OBINTSTA = s.obintsta := rfl

theorem readReg_obinten (s : RegState) : readReg s USB2_OBINTEN = s.obinten := rfl

theorem readReg_vbctrl (s : RegState) : readReg s USB2_VBCTRL = s.vbctrl := rfl

theorem readReg_linectrl1 (s : RegState) : readReg s USB2_LINECTRL1 = s.linectrl1 := rfl

theorem readReg_adpctrl (s : RegState) : readReg s USB2_ADPCTRL = s.adpctrl := rfl

theorem writeReg_int_enable (s : RegState) (v : Nat) :
    writeReg s USB2_INT_ENABLE v = { s with int_enable := v % 2 ^ 32 } := rfl

theorem writeReg_usbctr (s : RegState) (v : Nat) :
    writeReg s USB2_USBCTR v = { s with usbctr := v % 2 ^ 32 } := rfl

theorem writeReg_spd_rsm_timset (s : RegState) (v : Nat) :
    writeReg s USB2_SPD_RSM_TIMSET v = { s with spd_rsm_timset := v % 2 ^ 32 } := rfl

theorem writeReg_oc_timset (s : RegState) (v : Nat) :
    writeReg s USB2_OC_TIMSET v = { s with oc_timset := v % 2 ^ 32 } := rfl

theorem writeReg_commctrl (s : RegState) (v : Nat) :
    writeReg s USB2_COMMCTRL v = { s with commctrl := v % 2 ^ 32 } := rfl

theorem writeReg_obintsta (s : RegState) (v : Nat) :
    writeReg s USB2_OBINTSTA v = { s with obintsta := v % 2 ^ 32 } := rfl

theorem writeReg_obinten (s : RegState) (v : Nat) :
    writeReg s USB2_OBINTEN v = { s with obinten := v % 2 ^ 32 } := rfl

theorem writeReg_vbctrl (s : RegState) (v : Nat) :
    writeReg s USB2_VBCTRL v = { s with vbctrl := v % 2 ^ 32 } := rfl

theorem writeReg_linectrl1 (s : RegState) (v : Nat) :
    writeReg s USB2_LINECTRL1 v = { s with linectrl1 := v % 2 ^ 32 } := rfl

theorem writeReg_adpctrl (s : RegState) (v : Nat) :
    writeReg s USB2_ADPCTRL v = { s with adpctrl := v % 2 ^ 32 } := rfl

/-- Claim C7: `init` always returns success, clears INT_ENABLE and
programs the two fixed timing constants `0x014e029b` (SPD_RSM_TIMSET) and
`0x000209ab` (OC_TIMSET), from any instance and any starting register
state, by three absolute stores. -/
theorem init_programs_timing_constants (s : RegState) (tr : Trace) :
    (rcar_gen3_phy_phy_init (s, tr)).1 = 0 ∧
    (rcar_gen3_phy_phy_init (s, tr)).2.1.int_enable = 0 ∧
    (rcar_gen3_phy_phy_init (s, tr)).2.1.spd_rsm_timset = 0x014e029b ∧
    (rcar_gen3_phy_phy_init (s, tr)).2.1.oc_timset = 0x000209ab ∧
    (rcar_gen3_phy_phy_init (s, tr)).2.2 = tr ++
      [Event.write USB2_INT_ENABLE 0,
       Event.write USB2_SPD_RSM_TIMSET USB2_SPD_RSM_TIMSET_INIT,
       Event.write USB2_OC_TIMSET USB2_OC_TIMSET_INIT] := by
  simp [rcar_gen3_phy_phy_init, writel, writeReg_int_enable,
    writeReg_spd_rsm_timset, writeReg_oc_timset, USB2_SPD_RSM_TIMSET_INIT,
    USB2_OC_TIMSET_INIT]

/-- Claim C8: running `init` and then immediately `exit` leaves the
INT_ENABLE register equal to 0, from any starting register state. -/
theorem init_then_exit_int_enable_zero (s : RegState) :
    ((rcar_gen3_phy_phy_exit (rcar_gen3_phy_phy_init (s, [])).2).2.1).int_enable = 0 := by
  simp [rcar_gen3_phy_phy_init, rcar_gen3_phy_phy_exit, writel,
    writeReg_int_enable, writeReg_spd_rsm_timset, writeReg_oc_timset]

/-- Claim C9: `set_mode` with submode 0 and a mode that is none of HOST,
DEVICE or OTG returns -EINVAL and leaves the register state untouched,
performing no register access at all. -/
theorem set_mode_invalid_mode_no_writes (s : RegState) (n : Nat) :
    rcar_gen3_phy_phy_set_mode (PhyMode.other n) 0 (s, []) =
      (-EINVAL, s, []) := by
  simp [rcar_gen3_phy_phy_set_mode]

/-! Shared helper lemmas: explicit forms of each write block, and 32-bit
read-modify-write bit algebra. -/

theorem host_mode_writes_eq (s : RegState) (tr : Trace) :
    host_mode_writes (s, tr) =
      ({ s with
         commctrl := (s.commctrl &&& (mask32 ^^^ USB2_COMMCTRL_OTG_PERI)) % 2 ^ 32,
         linectrl1 := (s.linectrl1 ||| (USB2_LINECTRL1_DP_RPD ||| USB2_LINECTRL1_DM_RPD)) % 2 ^ 32,
         adpctrl := (s.adpctrl ||| USB2_ADPCTRL_DRVVBUS) % 2 ^ 32 },
       tr ++ [Event.clrbits USB2_COMMCTRL USB2_COMMCTRL_OTG_PERI,
              Event.setbits USB2_LINECTRL1 (USB2_LINECTRL1_DP_RPD ||| USB2_LINECTRL1_DM_RPD),
              Event.setbits USB2_ADPCTRL USB2_ADPCTRL_DRVVBUS]) := by
  simp [host_mode_writes, setbits_le32, clrbits_le32, writeReg_commctrl,
    writeReg_linectrl1, writeReg_adpctrl, readReg_commctrl,
    readReg_linectrl1, readReg_adpctrl]

theorem device_mode_writes_eq (s : RegState) (tr : Trace) :
    device_mode_writes (s, tr) =
      ({ s with
         commctrl := (s.commctrl ||| USB2_COMMCTRL_OTG_PERI) % 2 ^ 32,
         linectrl1 := ((s.linectrl1 &&& (mask32 ^^^ (USB2_LINECTRL1_DP_RPD ||| USB2_LINECTRL1_DM_RPD))) ||| USB2_LINECTRL1_DM_RPD) % 2 ^ 32,
         adpctrl := (s.adpctrl &&& (mask32 ^^^ USB2_ADPCTRL_DRVVBUS)) % 2 ^ 32 },
       tr ++ [Event.setbits USB2_COMMCTRL USB2_COMMCTRL_OTG_PERI,
              Event.clrsetbits USB2_LINECTRL1 (USB2_LINECTRL1_DP_RPD ||| USB2_LINECTRL1_DM_RPD) USB2_LINECTRL1_DM_RPD,
              Event.clrbits USB2_ADPCTRL USB2_ADPCTRL_DRVVBUS]) := by
  simp [device_mode_writes, setbits_le32, clrbits_le32, clrsetbits_le32,
    writeReg_commctrl, writeReg_linectrl1, writeReg_adpctrl,
    readReg_commctrl, readReg_linectrl1, readReg_adpctrl]

theorem otg_initialization_eq (s : RegState) (tr : Trace) :
    otg_initialization (s, tr) =
      ({ s with
         int_enable := (USB2_INT_ENABLE_UCOM_INTEN ||| USB2_INT_ENABLE_USBH_INTB_EN ||| USB2_INT_ENABLE_USBH_INTA_EN) % 2 ^ 32,
         vbctrl := (s.vbctrl ||| USB2_VBCTRL_DRVVBUSSEL) % 2 ^ 32,
         obintsta := (USB2_OBINT_SESSVLDCHG ||| USB2_OBINT_IDDIGCHG) % 2 ^ 32,
         obinten := (s.obinten ||| (USB2_OBINT_SESSVLDCHG ||| USB2_OBINT_IDDIGCHG)) % 2 ^ 32,
         adpctrl := (s.adpctrl ||| USB2_ADPCTRL_IDPULLUP) % 2 ^ 32,
         linectrl1 := ((s.linectrl1 &&& (mask32 ^^^ (USB2_LINECTRL1_DP_RPD ||| USB2_LINECTRL1_DM_RPD ||| USB2_LINECTRL1_DPRPD_EN ||| USB2_LINECTRL1_DMRPD_EN))) ||| (USB2_LINECTRL1_DPRPD_EN ||| USB2_LINECTRL1_DMRPD_EN)) % 2 ^ 32 },
       tr ++ [Event.write USB2_INT_ENABLE ((USB2_INT_ENABLE_UCOM_INTEN ||| USB2_INT_ENABLE_USBH_INTB_EN ||| USB2_INT_ENABLE_USBH_INTA_EN) % 2 ^ 32),
              Event.setbits USB2_VBCTRL USB2_VBCTRL_DRVVBUSSEL,
              Event.write USB2_OBINTSTA ((USB2_OBINT_SESSVLDCHG ||| USB2_OBINT_IDDIGCHG) % 2 ^ 32),
              Event.setbits USB2_OBINTEN (USB2_OBINT_SESSVLDCHG ||| USB2_OBINT_IDDIGCHG),
              Event.setbits USB2_ADPCTRL USB2_ADPCTRL_IDPULLUP,
              Event.clrsetbits USB2_LINECTRL1
                (USB2_LINECTRL1_DP_RPD ||| USB2_LINECTRL1_DM_RPD ||| USB2_LINECTRL1_DPRPD_EN ||| USB2_LINECTRL1_DMRPD_EN)
                (USB2_LINECTRL1_DPRPD_EN ||| USB2_LINECTRL1_DMRPD_EN)]) := by
  simp [otg_initialization, writel, setbits_le32, clrsetbits_le32,
    writeReg_int_enable, writeReg_vbctrl, writeReg_obintsta,
    writeReg_obinten, writeReg_adpctrl, writeReg_linectrl1,
    readReg_vbctrl, readReg_obinten, readReg_adpctrl, readReg_linectrl1]

theorem set_mode_host_eq (s : RegState) (tr : Trace) (submode : Int) :
    rcar_gen3_phy_phy_set_mode PhyMode.usb_host submode (s, tr) =
      (0, host_mode_writes (s, tr)) := by
  simp [rcar_gen3_phy_phy_set_mode]

theorem set_mode_otg_eq (s : RegState) (submode : Int) :
    rcar_gen3_phy_phy_set_mode PhyMode.usb_otg submode (s, []) =
      (0, if (if submode ≠ 0 then otg_initialization (s, []) else (s, [])).1.adpctrl &&& adpdevmask = adpdevmask
          then device_mode_writes
            ((if submode ≠ 0 then otg_initialization (s, []) else (s, [])).1,
             (if submode ≠ 0 then otg_initialization (s, []) else (s, [])).2 ++
               [Event.read USB2_ADPCTRL (if submode ≠ 0 then otg_initialization (s, []) else (s, [])).1.adpctrl])
          else host_mode_writes
            ((if submode ≠ 0 then otg_initialization (s, []) else (s, [])).1,
             (if submode ≠ 0 then otg_initialization (s, []) else (s, [])).2 ++
               [Event.read USB2_ADPCTRL (if submode ≠ 0 then otg_initialization (s, []) else (s, [])).1.adpctrl])) := by
  simp [rcar_gen3_phy_phy_set_mode, readl, readReg_adpctrl]
  split <;> split <;> simp_all

theorem testBit_high_false {x i : Nat} (hx : x < 2 ^ 32) (hi : 32 ≤ i) :
    x.testBit i = false :=
  Nat.testBit_lt_two_pow
    (lt_of_lt_of_le hx (Nat.pow_le_pow_right (by norm_num) hi))

theorem mask32_testBit (i : Nat) : mask32.testBit i = decide (i < 32) := by
  rw [show mask32 = 2 ^ 32 - 1 from rfl, Nat.testBit_two_pow_sub_one]

theorem testBit_mask32_lit (i : Nat) :
    Nat.testBit 4294967295 i = decide (i < 32) := by
  rw [show (4294967295 : Nat) = 2 ^ 32 - 1 by norm_num,
    Nat.testBit_two_pow_sub_one]

theorem testBit_adpdevmask_lit (i : Nat) :
    Nat.testBit 1572864 i = (decide (19 = i) || decide (20 = i)) := by
  rw [show (1572864 : Nat) = 2 ^ 19 ||| 2 ^ 20 by decide, Nat.testBit_or,
    Nat.testBit_two_pow, Nat.testBit_two_pow]

theorem clr_preserves_bit (x m i : Nat) (hx : x < 2 ^ 32)
    (hm : m.testBit i = false) :
    ((x &&& (mask32 ^^^ m)) % 2 ^ 32).testBit i = x.testBit i := by
  rw [Nat.mod_eq_of_lt (lt_of_le_of_lt Nat.and_le_left hx)]
  rcases Nat.lt_or_ge i 32 with hi | hi
  · simp [Nat.testBit_and, Nat.testBit_xor, mask32_testBit,
      testBit_mask32_lit, hm, hi]
  · simp [Nat.testBit_and, testBit_high_false hx hi]

theorem set_preserves_bit (x m i : Nat) (hx : x < 2 ^ 32) (hmlt : m < 2 ^ 32)
    (hm : m.testBit i = false) :
    ((x ||| m) % 2 ^ 32).testBit i = x.testBit i := by
  rw [Nat.mod_eq_of_lt (Nat.or_lt_two_pow hx hmlt)]
  simp [Nat.testBit_or, hm]

theorem clrset_preserves_bit (x c m i : Nat) (hx : x < 2 ^ 32)
    (hmlt : m < 2 ^ 32) (hc : c.testBit i = false)
    (hm : m.testBit i = false) :
    (((x &&& (mask32 ^^^ c)) ||| m) % 2 ^ 32).testBit i = x.testBit i := by
  have h1 : x &&& (mask32 ^^^ c) < 2 ^ 32 := lt_of_le_of_lt Nat.and_le_left hx
  rw [Nat.mod_eq_of_lt (Nat.or_lt_two_pow h1 hmlt)]
  rcases Nat.lt_or_ge i 32 with hi | hi
  · simp [Nat.testBit_or, Nat.testBit_and, Nat.testBit_xor, mask32_testBit,
      testBit_mask32_lit, hm, hc, hi]
  · simp [Nat.testBit_or, Nat.testBit_and, hm, testBit_high_false hx hi]

theorem adpdevmask_cond_of_bits {x : Nat} (h19 : x.testBit 19 = true)
    (h20 : x.testBit 20 = true) : x &&& adpdevmask = adpdevmask := by
  apply Nat.eq_of_testBit_eq
  intro i
  by_cases hi1 : i = 19
  · subst hi1
    simp [Nat.testBit_and, adpdevmask, USB2_ADPCTRL_IDDIG,
      USB2_ADPCTRL_OTGSESSVLD, BIT, Nat.testBit_two_pow, h19]
  by_cases hi2 : i = 20
  · subst hi2
    simp [Nat.testBit_and, adpdevmask, USB2_ADPCTRL_IDDIG,
      USB2_ADPCTRL_OTGSESSVLD, BIT, Nat.testBit_two_pow, h20]
  have hi1n : (19 : Nat) ≠ i := fun hh => hi1 hh.symm
  have hi2n : (20 : Nat) ≠ i := fun hh => hi2 hh.symm
  simp [Nat.testBit_and, adpdevmask, USB2_ADPCTRL_IDDIG,
    USB2_ADPCTRL_OTGSESSVLD, BIT, Nat.testBit_two_pow,
    testBit_adpdevmask_lit, hi1n, hi2n]

theorem set_sets_bit (x m i : Nat) (hi : i < 32) (hm : m.testBit i = true) :
    ((x ||| m) % 2 ^ 32).testBit i = true := by
  rw [Nat.testBit_mod_two_pow]
  simp [Nat.testBit_or, hm, hi]

theorem clr_clears_bit (x m i : Nat) (hm : m.testBit i = true) :
    ((x &&& (mask32 ^^^ m)) % 2 ^ 32).testBit i = false := by
  rw [Nat.testBit_mod_two_pow]
  rcases Nat.lt_or_ge i 32 with hi | hi
  · simp [Nat.testBit_and, Nat.testBit_xor, mask32_testBit,
      testBit_mask32_lit, hm, hi]
  · have hn : ¬ i < 32 := by omega
    simp [hn]

theorem clrset_sets_bit (x c m i : Nat) (hi : i < 32)
    (hm : m.testBit i = true) :
    (((x &&& (mask32 ^^^ c)) ||| m) % 2 ^ 32).testBit i = true := by
  rw [Nat.testBit_mod_two_pow]
  simp [Nat.testBit_or, hm, hi]

theorem clrset_clears_bit (x c m i : Nat) (hc : c.testBit i = true)
    (hm : m.testBit i = false) :
    (((x &&& (mask32 ^^^ c)) ||| m) % 2 ^ 32).testBit i = false := by
  rw [Nat.testBit_mod_two_pow]
  rcases Nat.lt_or_ge i 32 with hi | hi
  · simp [Nat.testBit_or, Nat.testBit_and, Nat.testBit_xor, mask32_testBit,
      testBit_mask32_lit, hm, hc, hi]
  · have hn : ¬ i < 32 := by omega
    simp [hn]

theorem OTG_PERI_testBit (i : Nat) :
    USB2_COMMCTRL_OTG_PERI.testBit i = decide (31 = i) := by
  rw [show USB2_COMMCTRL_OTG_PERI = 2 ^ 31 from rfl, Nat.testBit_two_pow]

theorem DRVVBUS_testBit (i : Nat) :
    USB2_ADPCTRL_DRVVBUS.testBit i = decide (4 = i) := by
  rw [show USB2_ADPCTRL_DRVVBUS = 2 ^ 4 from rfl, Nat.testBit_two_pow]

theorem IDPULLUP_testBit (i : Nat) :
    USB2_ADPCTRL_IDPULLUP.testBit i = decide (5 = i) := by
  rw [show USB2_ADPCTRL_IDPULLUP = 2 ^ 5 from rfl, Nat.testBit_two_pow]

theorem DRVVBUSSEL_testBit (i : Nat) :
    USB2_VBCTRL_DRVVBUSSEL.testBit i = decide (8 = i) := by
  rw [show USB2_VBCTRL_DRVVBUSSEL = 2 ^ 8 from rfl, Nat.testBit_two_pow]

theorem DM_RPD_testBit (i : Nat) :
    USB2_LINECTRL1_DM_RPD.testBit i = decide (16 = i) := by
  rw [show USB2_LINECTRL1_DM_RPD = 2 ^ 16 from rfl, Nat.testBit_two_pow]

theorem DP_RPD_testBit (i : Nat) :
    USB2_LINECTRL1_DP_RPD.testBit i = decide (18 = i) := by
  rw [show USB2_LINECTRL1_DP_RPD = 2 ^ 18 from rfl, Nat.testBit_two_pow]

theorem DPRPD_EN_testBit (i : Nat) :
    USB2_LINECTRL1_DPRPD_EN.testBit i = decide (19 = i) := by
  rw [show USB2_LINECTRL1_DPRPD_EN = 2 ^ 19 from rfl, Nat.testBit_two_pow]

theorem DMRPD_EN_testBit (i : Nat) :
    USB2_LINECTRL1_DMRPD_EN.testBit i = decide (17 = i) := by
  rw [show USB2_LINECTRL1_DMRPD_EN = 2 ^ 17 from rfl, Nat.testBit_two_pow]

theorem SESSVLDCHG_testBit (i : Nat) :
    USB2_OBINT_SESSVLDCHG.testBit i = decide (12 = i) := by
  rw [show USB2_OBINT_SESSVLDCHG = 2 ^ 12 from rfl, Nat.testBit_two_pow]

theorem IDDIGCHG_testBit (i : Nat) :
    USB2_OBINT_IDDIGCHG.testBit i = decide (11 = i) := by
  rw [show USB2_OBINT_IDDIGCHG = 2 ^ 11 from rfl, Nat.testBit_two_pow]


theorem set_mode_otg0_eq (s : RegState) :
    rcar_gen3_phy_phy_set_mode PhyMode.usb_otg 0 (s, []) =
      (0, if s.adpctrl &&& adpdevmask = adpdevmask
          then device_mode_writes (s, [Event.read USB2_ADPCTRL s.adpctrl])
          else host_mode_writes (s, [Event.read USB2_ADPCTRL s.adpctrl])) := by
  rw [set_mode_otg_eq]
  simp

theorem set_mode_otg1_eq (s : RegState) :
    rcar_gen3_phy_phy_set_mode PhyMode.usb_otg 1 (s, []) =
      (0, if (otg_initialization (s, [])).1.adpctrl &&& adpdevmask = adpdevmask
          then device_mode_writes ((otg_initialization (s, [])).1,
            (otg_initialization (s, [])).2 ++
              [Event.read USB2_ADPCTRL (otg_initialization (s, [])).1.adpctrl])
          else host_mode_writes ((otg_initialization (s, [])).1,
            (otg_initialization (s, [])).2 ++
              [Event.read USB2_ADPCTRL (otg_initialization (s, [])).1.adpctrl])) := by
  rw [set_mode_otg_eq]
  simp

theorem clr_preserves_low_bit (x m i : Nat) (hi : i < 32)
    (hm : m.testBit i = false) :
    ((x &&& (mask32 ^^^ m)) % 2 ^ 32).testBit i = x.testBit i := by
  rw [Nat.testBit_mod_two_pow]
  simp [Nat.testBit_and, Nat.testBit_xor, mask32_testBit, testBit_mask32_lit,
    hm, hi]

theorem set_preserves_low_bit (x m i : Nat) (hi : i < 32)
    (hm : m.testBit i = false) :
    ((x ||| m) % 2 ^ 32).testBit i = x.testBit i := by
  rw [Nat.testBit_mod_two_pow]
  simp [Nat.testBit_or, hm, hi]

theorem clrset_preserves_low_bit (x c m i : Nat) (hi : i < 32)
    (hc : c.testBit i = false) (hm : m.testBit i = false) :
    (((x &&& (mask32 ^^^ c)) ||| m) % 2 ^ 32).testBit i = x.testBit i := by
  rw [Nat.testBit_mod_two_pow]
  simp [Nat.testBit_or, Nat.testBit_and, Nat.testBit_xor, mask32_testBit,
    testBit_mask32_lit, hm, hc, hi]

theorem PLL_RST_testBit (i : Nat) :
    USB2_USBCTR_PLL_RST.testBit i = decide (1 = i) := by
  rw [show USB2_USBCTR_PLL_RST = 2 ^ 1 from rfl, Nat.testBit_two_pow]

/-- Claim C1: `set_mode(OTG, submode)` performs exactly one plain read of
ADPCTRL per call and resolves the effective mode purely from that
snapshot (`otg_resolve`): DEVICE when both IDDIG and OTGSESSVLD are set in
the value read, HOST otherwise. The result is a function of the register
state passed to this call alone, so the resolution is re-evaluated on
every call and never cached. -/
theorem set_mode_otg_single_snapshot_resolution (s : RegState) (submode : Int) :
    countReads
      (rcar_gen3_phy_phy_set_mode PhyMode.usb_otg submode (s, [])).2.2
      USB2_ADPCTRL = 1 ∧
    rcar_gen3_phy_phy_set_mode PhyMode.usb_otg submode (s, []) =
      (0,
       if otg_resolve
            (if submode ≠ 0 then otg_initialization (s, []) else (s, [])).1.adpctrl =
          PhyMode.usb_device
       then device_mode_writes
         ((if submode ≠ 0 then otg_initialization (s, []) else (s, [])).1,
          (if submode ≠ 0 then otg_initialization (s, []) else (s, [])).2 ++
            [Event.read USB2_ADPCTRL
              (if submode ≠ 0 then otg_initialization (s, []) else (s, [])).1.adpctrl])
       else host_mode_writes
         ((if submode ≠ 0 then otg_initialization (s, []) else (s, [])).1,
          (if submode ≠ 0 then otg_initialization (s, []) else (s, [])).2 ++
            [Event.read USB2_ADPCTRL
              (if submode ≠ 0 then otg_initialization (s, []) else (s, [])).1.adpctrl])) := by
  constructor
  · rw [set_mode_otg_eq]
    rcases eq_or_ne submode 0 with hs | hs
    · subst hs
      by_cases hc : s.adpctrl &&& adpdevmask = adpdevmask <;>
        simp [hc, device_mode_writes_eq, host_mode_writes_eq, countReads]
    · rw [if_pos hs]
      by_cases hc :
        (otg_initialization (s, [])).1.adpctrl &&& adpdevmask = adpdevmask
      · rw [if_pos hc]
        simp [device_mode_writes_eq, otg_initialization_eq, countReads]
      · rw [if_neg hc]
        simp [host_mode_writes_eq, otg_initialization_eq, countReads]
  · rw [set_mode_otg_eq]
    by_cases hc :
      (if submode ≠ 0 then otg_initialization (s, []) else (s, [])).1.adpctrl &&&
        adpdevmask = adpdevmask <;>
      simp [otg_resolve, hc]

/-- Claim C2: `set_mode(OTG, 0)` in a state whose ADPCTRL has both IDDIG
(bit 19) and OTGSESSVLD (bit 20) set returns success and produces the
DEVICE terminal behaviour: OTG_PERI set in COMMCTRL, DM_RPD set and
DP_RPD cleared in LINECTRL1, DRVVBUS cleared in ADPCTRL; and no arming
write happens: INT_ENABLE, VBCTRL, OBINTSTA and OBINTEN are untouched,
the IDPULLUP bit and both RPD_EN bits keep their prior values, and the
trace holds no event besides the snapshot read and the three DEVICE
writes. -/
theorem set_mode_otg_submode0_device_behaviour (s : RegState) (ret : Int) (s2 : RegState) (tr : Trace)
    (h19 : s.adpctrl.testBit 19 = true) (h20 : s.adpctrl.testBit 20 = true)
    (hr : rcar_gen3_phy_phy_set_mode PhyMode.usb_otg 0 (s, []) =
      (ret, s2, tr)) :
    ret = 0 ∧
    s2.commctrl.testBit 31 = true ∧
    s2.linectrl1.testBit 16 = true ∧
    s2.linectrl1.testBit 18 = false ∧
    s2.adpctrl.testBit 4 = false ∧
    s2.int_enable = s.int_enable ∧
    s2.vbctrl = s.vbctrl ∧
    s2.obintsta = s.obintsta ∧
    s2.obinten = s.obinten ∧
    s2.adpctrl.testBit 5 = s.adpctrl.testBit 5 ∧
    s2.linectrl1.testBit 19 = s.linectrl1.testBit 19 ∧
    s2.linectrl1.testBit 17 = s.linectrl1.testBit 17 ∧
    tr = [Event.read USB2_ADPCTRL s.adpctrl,
          Event.setbits USB2_COMMCTRL USB2_COMMCTRL_OTG_PERI,
          Event.clrsetbits USB2_LINECTRL1
            (USB2_LINECTRL1_DP_RPD ||| USB2_LINECTRL1_DM_RPD)
            USB2_LINECTRL1_DM_RPD,
          Event.clrbits USB2_ADPCTRL USB2_ADPCTRL_DRVVBUS] := by
  have hmask := adpdevmask_cond_of_bits h19 h20
  rw [set_mode_otg0_eq, if_pos hmask, device_mode_writes_eq] at hr
  injection hr with h1 hrest
  injection hrest with h2 h3
  subst h1
  subst h2
  refine ⟨rfl, ?_, ?_, ?_, ?_, rfl, rfl, rfl, rfl, ?_, ?_, ?_, h3.symm⟩
  · exact set_sets_bit _ _ _ (by omega) (by simp [OTG_PERI_testBit])
  · exact clrset_sets_bit _ _ _ _ (by omega) (by simp [DM_RPD_testBit])
  · exact clrset_clears_bit _ _ _ _
      (by simp [DP_RPD_testBit, DM_RPD_testBit])
      (by simp [DM_RPD_testBit])
  · exact clr_clears_bit _ _ _ (by simp [DRVVBUS_testBit])
  · exact clr_preserves_low_bit _ _ _ (by omega) (by simp [DRVVBUS_testBit])
  · exact clrset_preserves_low_bit _ _ _ _ (by omega)
      (by simp [DP_RPD_testBit, DM_RPD_testBit]) (by simp [DM_RPD_testBit])
  · exact clrset_preserves_low_bit _ _ _ _ (by omega)
      (by simp [DP_RPD_testBit, DM_RPD_testBit]) (by simp [DM_RPD_testBit])

theorem set_mode_otg_submode0_device_witness :
    sDev.adpctrl.testBit 19 = true ∧ sDev.adpctrl.testBit 20 = true ∧
    ((rcar_gen3_phy_phy_set_mode PhyMode.usb_otg 0 (sDev, [])).1 = 0 ∧
     (rcar_gen3_phy_phy_set_mode PhyMode.usb_otg 0 (sDev, [])).2.1.commctrl.testBit 31 = true ∧
     (rcar_gen3_phy_phy_set_mode PhyMode.usb_otg 0 (sDev, [])).2.1.linectrl1.testBit 16 = true ∧
     (rcar_gen3_phy_phy_set_mode PhyMode.usb_otg 0 (sDev, [])).2.1.linectrl1.testBit 18 = false ∧
     (rcar_gen3_phy_phy_set_mode PhyMode.usb_otg 0 (sDev, [])).2.1.adpctrl.testBit 4 = false ∧
     (rcar_gen3_phy_phy_set_mode PhyMode.usb_otg 0 (sDev, [])).2.1.int_enable = sDev.int_enable ∧
     (rcar_gen3_phy_phy_set_mode PhyMode.usb_otg 0 (sDev, [])).2.1.vbctrl = sDev.vbctrl ∧
     (rcar_gen3_phy_phy_set_mode PhyMode.usb_otg 0 (sDev, [])).2.1.obintsta = sDev.obintsta ∧
     (rcar_gen3_phy_phy_set_mode PhyMode.usb_otg 0 (sDev, [])).2.1.obinten = sDev.obinten ∧
     (rcar_gen3_phy_phy_set_mode PhyMode.usb_otg 0 (sDev, [])).2.1.adpctrl.testBit 5 = sDev.adpctrl.testBit 5 ∧
     (rcar_gen3_phy_phy_set_mode PhyMode.usb_otg 0 (sDev, [])).2.1.linectrl1.testBit 19 = sDev.linectrl1.testBit 19 ∧
     (rcar_gen3_phy_phy_set_mode PhyMode.usb_otg 0 (sDev, [])).2.1.linectrl1.testBit 17 = sDev.linectrl1.testBit 17 ∧
     (rcar_gen3_phy_phy_set_mode PhyMode.usb_otg 0 (sDev, [])).2.2 =
       [Event.read USB2_ADPCTRL sDev.adpctrl,
        Event.setbits USB2_COMMCTRL USB2_COMMCTRL_OTG_PERI,
        Event.clrsetbits USB2_LINECTRL1
          (USB2_LINECTRL1_DP_RPD ||| USB2_LINECTRL1_DM_RPD)
          USB2_LINECTRL1_DM_RPD,
        Event.clrbits USB2_ADPCTRL USB2_ADPCTRL_DRVVBUS]) :=
  ⟨by decide, by decide,
   set_mode_otg_submode0_device_behaviour sDev
     (rcar_gen3_phy_phy_set_mode PhyMode.usb_otg 0 (sDev, [])).1
     (rcar_gen3_phy_phy_set_mode PhyMode.usb_otg 0 (sDev, [])).2.1
     (rcar_gen3_phy_phy_set_mode PhyMode.usb_otg 0 (sDev, [])).2.2
     (by decide) (by decide) rfl⟩

/-- Claim C3: `set_mode(OTG, 1)` returns success, its trace is exactly the
six arming writes, then the single ADPCTRL snapshot read, then the three
terminal writes of the mode resolved from that snapshot — so each arming
write (among them the OBINTEN enable of SESSVLDCHG and IDDIGCHG, the
ADPCTRL IDPULLUP set, and the LINECTRL1 update that sets both RPD_EN
bits) happens exactly once in the call and strictly before the
mode-resolution read; and after arming, OBINTEN bits 12 and 11, ADPCTRL
bit 5 and LINECTRL1 bits 19 and 17 are set. -/
theorem set_mode_otg_submode1_arming_once (s : RegState) :
    (rcar_gen3_phy_phy_set_mode PhyMode.usb_otg 1 (s, [])).1 = 0 ∧
    (rcar_gen3_phy_phy_set_mode PhyMode.usb_otg 1 (s, [])).2.2 =
      (otg_initialization (s, [])).2 ++
        Event.read USB2_ADPCTRL (otg_initialization (s, [])).1.adpctrl ::
        (if (otg_initialization (s, [])).1.adpctrl &&& adpdevmask = adpdevmask
         then [Event.setbits USB2_COMMCTRL USB2_COMMCTRL_OTG_PERI,
               Event.clrsetbits USB2_LINECTRL1
                 (USB2_LINECTRL1_DP_RPD ||| USB2_LINECTRL1_DM_RPD)
                 USB2_LINECTRL1_DM_RPD,
               Event.clrbits USB2_ADPCTRL USB2_ADPCTRL_DRVVBUS]
         else [Event.clrbits USB2_COMMCTRL USB2_COMMCTRL_OTG_PERI,
               Event.setbits USB2_LINECTRL1
                 (USB2_LINECTRL1_DP_RPD ||| USB2_LINECTRL1_DM_RPD),
               Event.setbits USB2_ADPCTRL USB2_ADPCTRL_DRVVBUS]) ∧
    countEv (rcar_gen3_phy_phy_set_mode PhyMode.usb_otg 1 (s, [])).2.2
      (Event.setbits USB2_OBINTEN
        (USB2_OBINT_SESSVLDCHG ||| USB2_OBINT_IDDIGCHG)) = 1 ∧
    countEv (rcar_gen3_phy_phy_set_mode PhyMode.usb_otg 1 (s, [])).2.2
      (Event.setbits USB2_ADPCTRL USB2_ADPCTRL_IDPULLUP) = 1 ∧
    countEv (rcar_gen3_phy_phy_set_mode PhyMode.usb_otg 1 (s, [])).2.2
      (Event.clrsetbits USB2_LINECTRL1
        (USB2_LINECTRL1_DP_RPD ||| USB2_LINECTRL1_DM_RPD |||
          USB2_LINECTRL1_DPRPD_EN ||| USB2_LINECTRL1_DMRPD_EN)
        (USB2_LINECTRL1_DPRPD_EN ||| USB2_LINECTRL1_DMRPD_EN)) = 1 ∧
    (otg_initialization (s, [])).1.obinten.testBit 12 = true ∧
    (otg_initialization (s, [])).1.obinten.testBit 11 = true ∧
    (otg_initialization (s, [])).1.adpctrl.testBit 5 = true ∧
    (otg_initialization (s, [])).1.linectrl1.testBit 19 = true ∧
    (otg_initialization (s, [])).1.linectrl1.testBit 17 = true := by
  by_cases hc :
      (otg_initialization (s, [])).1.adpctrl &&& adpdevmask = adpdevmask
  · rw [set_mode_otg1_eq, if_pos hc, if_pos hc, device_mode_writes_eq]
    refine ⟨rfl, ?_, ?_, ?_, ?_, ?_, ?_, ?_, ?_, ?_⟩
    · simp [List.append_assoc]
    · rw [otg_initialization_eq]
      simp [countEv, USB2_INT_ENABLE, USB2_USBCTR, USB2_SPD_RSM_TIMSET, USB2_OC_TIMSET, USB2_COMMCTRL, USB2_OBINTSTA, USB2_OBINTEN, USB2_VBCTRL, USB2_LINECTRL1, USB2_ADPCTRL, USB2_INT_ENABLE_UCOM_INTEN, USB2_INT_ENABLE_USBH_INTB_EN, USB2_INT_ENABLE_USBH_INTA_EN, USB2_OBINT_SESSVLDCHG, USB2_OBINT_IDDIGCHG, USB2_VBCTRL_DRVVBUSSEL, USB2_LINECTRL1_DPRPD_EN, USB2_LINECTRL1_DP_RPD, USB2_LINECTRL1_DMRPD_EN, USB2_LINECTRL1_DM_RPD, USB2_ADPCTRL_IDPULLUP, USB2_ADPCTRL_DRVVBUS, USB2_COMMCTRL_OTG_PERI, BIT, mask32]
    · rw [otg_initialization_eq]
      simp [countEv, USB2_INT_ENABLE, USB2_USBCTR, USB2_SPD_RSM_TIMSET, USB2_OC_TIMSET, USB2_COMMCTRL, USB2_OBINTSTA, USB2_OBINTEN, USB2_VBCTRL, USB2_LINECTRL1, USB2_ADPCTRL, USB2_INT_ENABLE_UCOM_INTEN, USB2_INT_ENABLE_USBH_INTB_EN, USB2_INT_ENABLE_USBH_INTA_EN, USB2_OBINT_SESSVLDCHG, USB2_OBINT_IDDIGCHG, USB2_VBCTRL_DRVVBUSSEL, USB2_LINECTRL1_DPRPD_EN, USB2_LINECTRL1_DP_RPD, USB2_LINECTRL1_DMRPD_EN, USB2_LINECTRL1_DM_RPD, USB2_ADPCTRL_IDPULLUP, USB2_ADPCTRL_DRVVBUS, USB2_COMMCTRL_OTG_PERI, BIT, mask32]
    · rw [otg_initialization_eq]
      simp [countEv, USB2_INT_ENABLE, USB2_USBCTR, USB2_SPD_RSM_TIMSET, USB2_OC_TIMSET, USB2_COMMCTRL, USB2_OBINTSTA, USB2_OBINTEN, USB2_VBCTRL, USB2_LINECTRL1, USB2_ADPCTRL, USB2_INT_ENABLE_UCOM_INTEN, USB2_INT_ENABLE_USBH_INTB_EN, USB2_INT_ENABLE_USBH_INTA_EN, USB2_OBINT_SESSVLDCHG, USB2_OBINT_IDDIGCHG, USB2_VBCTRL_DRVVBUSSEL, USB2_LINECTRL1_DPRPD_EN, USB2_LINECTRL1_DP_RPD, USB2_LINECTRL1_DMRPD_EN, USB2_LINECTRL1_DM_RPD, USB2_ADPCTRL_IDPULLUP, USB2_ADPCTRL_DRVVBUS, USB2_COMMCTRL_OTG_PERI, BIT, mask32]
    · rw [otg_initialization_eq]
      exact set_sets_bit _ _ _ (by omega)
        (by simp [SESSVLDCHG_testBit, IDDIGCHG_testBit])
    · rw [otg_initialization_eq]
      exact set_sets_bit _ _ _ (by omega)
        (by simp [SESSVLDCHG_testBit, IDDIGCHG_testBit])
    · rw [otg_initialization_eq]
      exact set_sets_bit _ _ _ (by omega) (by simp [IDPULLUP_testBit])
    · rw [otg_initialization_eq]
      exact clrset_sets_bit _ _ _ _ (by omega)
        (by simp [DPRPD_EN_testBit, DMRPD_EN_testBit])
    · rw [otg_initialization_eq]
      exact clrset_sets_bit _ _ _ _ (by omega)
        (by simp [DPRPD_EN_testBit, DMRPD_EN_testBit])
  · rw [set_mode_otg1_eq, if_neg hc, if_neg hc, host_mode_writes_eq]
    refine ⟨rfl, ?_, ?_, ?_, ?_, ?_, ?_, ?_, ?_, ?_⟩
    · simp [List.append_assoc]
    · rw [otg_initialization_eq]
      simp [countEv, USB2_INT_ENABLE, USB2_USBCTR, USB2_SPD_RSM_TIMSET, USB2_OC_TIMSET, USB2_COMMCTRL, USB2_OBINTSTA, USB2_OBINTEN, USB2_VBCTRL, USB2_LINECTRL1, USB2_ADPCTRL, USB2_INT_ENABLE_UCOM_INTEN, USB2_INT_ENABLE_USBH_INTB_EN, USB2_INT_ENABLE_USBH_INTA_EN, USB2_OBINT_SESSVLDCHG, USB2_OBINT_IDDIGCHG, USB2_VBCTRL_DRVVBUSSEL, USB2_LINECTRL1_DPRPD_EN, USB2_LINECTRL1_DP_RPD, USB2_LINECTRL1_DMRPD_EN, USB2_LINECTRL1_DM_RPD, USB2_ADPCTRL_IDPULLUP, USB2_ADPCTRL_DRVVBUS, USB2_COMMCTRL_OTG_PERI, BIT, mask32]
    · rw [otg_initialization_eq]
      simp [countEv, USB2_INT_ENABLE, USB2_USBCTR, USB2_SPD_RSM_TIMSET, USB2_OC_TIMSET, USB2_COMMCTRL, USB2_OBINTSTA, USB2_OBINTEN, USB2_VBCTRL, USB2_LINECTRL1, USB2_ADPCTRL, USB2_INT_ENABLE_UCOM_INTEN, USB2_INT_ENABLE_USBH_INTB_EN, USB2_INT_ENABLE_USBH_INTA_EN, USB2_OBINT_SESSVLDCHG, USB2_OBINT_IDDIGCHG, USB2_VBCTRL_DRVVBUSSEL, USB2_LINECTRL1_DPRPD_EN, USB2_LINECTRL1_DP_RPD, USB2_LINECTRL1_DMRPD_EN, USB2_LINECTRL1_DM_RPD, USB2_ADPCTRL_IDPULLUP, USB2_ADPCTRL_DRVVBUS, USB2_COMMCTRL_OTG_PERI, BIT, mask32]
    · rw [otg_initialization_eq]
      simp [countEv, USB2_INT_ENABLE, USB2_USBCTR, USB2_SPD_RSM_TIMSET, USB2_OC_TIMSET, USB2_COMMCTRL, USB2_OBINTSTA, USB2_OBINTEN, USB2_VBCTRL, USB2_LINECTRL1, USB2_ADPCTRL, USB2_INT_ENABLE_UCOM_INTEN, USB2_INT_ENABLE_USBH_INTB_EN, USB2_INT_ENABLE_USBH_INTA_EN, USB2_OBINT_SESSVLDCHG, USB2_OBINT_IDDIGCHG, USB2_VBCTRL_DRVVBUSSEL, USB2_LINECTRL1_DPRPD_EN, USB2_LINECTRL1_DP_RPD, USB2_LINECTRL1_DMRPD_EN, USB2_LINECTRL1_DM_RPD, USB2_ADPCTRL_IDPULLUP, USB2_ADPCTRL_DRVVBUS, USB2_COMMCTRL_OTG_PERI, BIT, mask32]
    · rw [otg_initialization_eq]
      exact set_sets_bit _ _ _ (by omega)
        (by simp [SESSVLDCHG_testBit, IDDIGCHG_testBit])
    · rw [otg_initialization_eq]
      exact set_sets_bit _ _ _ (by omega)
        (by simp [SESSVLDCHG_testBit, IDDIGCHG_testBit])
    · rw [otg_initialization_eq]
      exact set_sets_bit _ _ _ (by omega) (by simp [IDPULLUP_testBit])
    · rw [otg_initialization_eq]
      exact clrset_sets_bit _ _ _ _ (by omega)
        (by simp [DPRPD_EN_testBit, DMRPD_EN_testBit])
    · rw [otg_initialization_eq]
      exact clrset_sets_bit _ _ _ _ (by omega)
        (by simp [DPRPD_EN_testBit, DMRPD_EN_testBit])

/-- Claim C4: `set_mode(HOST, submode)` on any 32-bit register state
returns success, clears OTG_PERI (bit 31) in COMMCTRL, sets DP_RPD
(bit 18) and DM_RPD (bit 16) in LINECTRL1, sets DRVVBUS (bit 4) in
ADPCTRL, and preserves every other bit of those three registers
(read-modify-write discipline). -/
theorem set_mode_host_bits_and_frame (s : RegState) (submode : Int) (ret : Int)
    (s2 : RegState) (tr : Trace) (hwf : WF s)
    (hr : rcar_gen3_phy_phy_set_mode PhyMode.usb_host submode (s, []) =
      (ret, s2, tr)) :
    ret = 0 ∧
    s2.commctrl.testBit 31 = false ∧
    s2.linectrl1.testBit 18 = true ∧
    s2.linectrl1.testBit 16 = true ∧
    s2.adpctrl.testBit 4 = true ∧
    (∀ i, i ≠ 31 → s2.commctrl.testBit i = s.commctrl.testBit i) ∧
    (∀ i, i ≠ 18 → i ≠ 16 → s2.linectrl1.testBit i = s.linectrl1.testBit i) ∧
    (∀ i, i ≠ 4 → s2.adpctrl.testBit i = s.adpctrl.testBit i) := by
  obtain ⟨-, -, -, -, hcc, -, -, -, hlc, had⟩ := hwf
  rw [set_mode_host_eq, host_mode_writes_eq] at hr
  injection hr with h1 hrest
  injection hrest with h2 h3
  subst h1
  subst h2
  refine ⟨rfl, ?_, ?_, ?_, ?_, ?_, ?_, ?_⟩
  · exact clr_clears_bit _ _ _ (by simp [OTG_PERI_testBit])
  · exact set_sets_bit _ _ _ (by omega)
      (by simp [DP_RPD_testBit, DM_RPD_testBit])
  · exact set_sets_bit _ _ _ (by omega)
      (by simp [DP_RPD_testBit, DM_RPD_testBit])
  · exact set_sets_bit _ _ _ (by omega) (by simp [DRVVBUS_testBit])
  · intro i hi
    refine clr_preserves_bit _ _ _ hcc ?_
    have hin : (31 : Nat) ≠ i := fun hh => hi hh.symm
    simp [OTG_PERI_testBit, hin]
  · intro i hi18 hi16
    refine set_preserves_bit _ _ _ hlc (by decide) ?_
    have h18 : (18 : Nat) ≠ i := fun hh => hi18 hh.symm
    have h16 : (16 : Nat) ≠ i := fun hh => hi16 hh.symm
    simp [DP_RPD_testBit, DM_RPD_testBit, h18, h16]
  · intro i hi
    refine set_preserves_bit _ _ _ had (by decide) ?_
    have hin : (4 : Nat) ≠ i := fun hh => hi hh.symm
    simp [DRVVBUS_testBit, hin]

theorem set_mode_host_frame_witness :
    WF sHost ∧
    ((rcar_gen3_phy_phy_set_mode PhyMode.usb_host 0 (sHost, [])).1 = 0 ∧
     (rcar_gen3_phy_phy_set_mode PhyMode.usb_host 0 (sHost, [])).2.1.commctrl.testBit 31 = false ∧
     (rcar_gen3_phy_phy_set_mode PhyMode.usb_host 0 (sHost, [])).2.1.linectrl1.testBit 18 = true ∧
     (rcar_gen3_phy_phy_set_mode PhyMode.usb_host 0 (sHost, [])).2.1.linectrl1.testBit 16 = true ∧
     (rcar_gen3_phy_phy_set_mode PhyMode.usb_host 0 (sHost, [])).2.1.adpctrl.testBit 4 = true ∧
     (∀ i, i ≠ 31 →
       (rcar_gen3_phy_phy_set_mode PhyMode.usb_host 0 (sHost, [])).2.1.commctrl.testBit i =
         sHost.commctrl.testBit i) ∧
     (∀ i, i ≠ 18 → i ≠ 16 →
       (rcar_gen3_phy_phy_set_mode PhyMode.usb_host 0 (sHost, [])).2.1.linectrl1.testBit i =
         sHost.linectrl1.testBit i) ∧
     (∀ i, i ≠ 4 →
       (rcar_gen3_phy_phy_set_mode PhyMode.usb_host 0 (sHost, [])).2.1.adpctrl.testBit i =
         sHost.adpctrl.testBit i)) :=
  ⟨by decide,
   set_mode_host_bits_and_frame sHost 0
     (rcar_gen3_phy_phy_set_mode PhyMode.usb_host 0 (sHost, [])).1
     (rcar_gen3_phy_phy_set_mode PhyMode.usb_host 0 (sHost, [])).2.1
     (rcar_gen3_phy_phy_set_mode PhyMode.usb_host 0 (sHost, [])).2.2
     (by decide) rfl⟩

/-- Claim C5: when a VBUS regulator is present and its enable call fails,
`power_on` returns that failure code, leaves every register exactly as it
was, and issues no register access at all — in particular the PLL_RST
set-then-clear pulse on USBCTR never happens (the trace holds only the
regulator call). -/
theorem power_on_regulator_failure_aborts (supply : Bool → Int)
    (s : RegState) (h : supply true ≠ 0) :
    rcar_gen3_phy_phy_power_on { vbus_supply := some supply } (s, []) =
      (supply true, s, [Event.regulator_set_enable true]) := by
  simp [rcar_gen3_phy_phy_power_on, regulator_set_enable, h]

theorem power_on_regulator_failure_witness :
    ((fun _ => (-5 : Int)) true ≠ 0) ∧
    rcar_gen3_phy_phy_power_on
        { vbus_supply := some (fun _ => (-5 : Int)) } (sHost, []) =
      ((fun _ => (-5 : Int)) true, sHost, [Event.regulator_set_enable true]) :=
  ⟨by decide,
   power_on_regulator_failure_aborts (fun _ => (-5 : Int)) sHost (by decide)⟩

/-- Claim C6: `power_on` with no VBUS regulator configured returns
success, makes no regulator call, and performs exactly two USBCTR
accesses, first a read-modify-write that sets PLL_RST (bit 1, observed
set in between) and then one that clears it again, touching nothing
else. -/
theorem power_on_no_regulator_pll_pulse (s : RegState) :
    (rcar_gen3_phy_phy_power_on { vbus_supply := none } (s, [])).1 = 0 ∧
    (rcar_gen3_phy_phy_power_on { vbus_supply := none } (s, [])).2.2 =
      [Event.setbits USB2_USBCTR USB2_USBCTR_PLL_RST,
       Event.clrbits USB2_USBCTR USB2_USBCTR_PLL_RST] ∧
    ((setbits_le32 USB2_USBCTR USB2_USBCTR_PLL_RST (s, [])).1.usbctr).testBit 1 = true ∧
    ((rcar_gen3_phy_phy_power_on { vbus_supply := none } (s, [])).2.1.usbctr).testBit 1 = false ∧
    (rcar_gen3_phy_phy_power_on { vbus_supply := none } (s, [])).2.1 =
      { s with usbctr := (((s.usbctr ||| USB2_USBCTR_PLL_RST) % 2 ^ 32) &&&
          (mask32 ^^^ USB2_USBCTR_PLL_RST)) % 2 ^ 32 } := by
  refine ⟨?_, ?_, ?_, ?_, ?_⟩
  · simp [rcar_gen3_phy_phy_power_on, setbits_le32, clrbits_le32]
  · simp [rcar_gen3_phy_phy_power_on, setbits_le32, clrbits_le32]
  · simp only [setbits_le32, writeReg_usbctr, readReg_usbctr]
    exact set_sets_bit _ _ _ (by omega) (by simp [PLL_RST_testBit])
  · simp only [rcar_gen3_phy_phy_power_on, setbits_le32, clrbits_le32,
      writeReg_usbctr, readReg_usbctr]
    simp only [ne_eq, not_true_eq_false, reduceIte]
    exact clr_clears_bit _ _ _ (by simp [PLL_RST_testBit])
  · simp [rcar_gen3_phy_phy_power_on, setbits_le32, clrbits_le32,
      writeReg_usbctr, readReg_usbctr]

/-- Claim C10: with a nonzero submode, the OTG arming block also performs
the writes the spec's arming list omits: an absolute INT_ENABLE store of
exactly the UCOM, USBH_INTB, USBH_INTA enable mask (discarding whatever
`init` left there), a DRVVBUSSEL set in VBCTRL, an absolute OBINTSTA
store of exactly the SESSVLDCHG and IDDIGCHG mask, and a LINECTRL1
update that clears DP_RPD and DM_RPD while setting both RPD_EN bits; the
first six events of the call are exactly these writes. -/
theorem set_mode_otg_arming_full_effects (s : RegState) (submode : Int)
    (h : submode ≠ 0) :
    ((rcar_gen3_phy_phy_set_mode PhyMode.usb_otg submode (s, [])).2.2).take 6 =
      [Event.write USB2_INT_ENABLE
        (USB2_INT_ENABLE_UCOM_INTEN ||| USB2_INT_ENABLE_USBH_INTB_EN |||
          USB2_INT_ENABLE_USBH_INTA_EN),
       Event.setbits USB2_VBCTRL USB2_VBCTRL_DRVVBUSSEL,
       Event.write USB2_OBINTSTA
        (USB2_OBINT_SESSVLDCHG ||| USB2_OBINT_IDDIGCHG),
       Event.setbits USB2_OBINTEN
        (USB2_OBINT_SESSVLDCHG ||| USB2_OBINT_IDDIGCHG),
       Event.setbits USB2_ADPCTRL USB2_ADPCTRL_IDPULLUP,
       Event.clrsetbits USB2_LINECTRL1
        (USB2_LINECTRL1_DP_RPD ||| USB2_LINECTRL1_DM_RPD |||
          USB2_LINECTRL1_DPRPD_EN ||| USB2_LINECTRL1_DMRPD_EN)
        (USB2_LINECTRL1_DPRPD_EN ||| USB2_LINECTRL1_DMRPD_EN)] ∧
    (otg_initialization (s, [])).1.int_enable =
      (USB2_INT_ENABLE_UCOM_INTEN ||| USB2_INT_ENABLE_USBH_INTB_EN |||
        USB2_INT_ENABLE_USBH_INTA_EN) ∧
    (otg_initialization (s, [])).1.obintsta =
      (USB2_OBINT_SESSVLDCHG ||| USB2_OBINT_IDDIGCHG) ∧
    (otg_initialization (s, [])).1.vbctrl.testBit 8 = true ∧
    (otg_initialization (s, [])).1.linectrl1.testBit 18 = false ∧
    (otg_initialization (s, [])).1.linectrl1.testBit 16 = false ∧
    (otg_initialization (s, [])).1.linectrl1.testBit 19 = true ∧
    (otg_initialization (s, [])).1.linectrl1.testBit 17 = true := by
  refine ⟨?_, ?_, ?_, ?_, ?_, ?_, ?_, ?_⟩
  · rw [set_mode_otg_eq, if_pos h]
    by_cases hc :
      (otg_initialization (s, [])).1.adpctrl &&& adpdevmask = adpdevmask
    · rw [if_pos hc, device_mode_writes_eq, otg_initialization_eq]
      simp [USB2_INT_ENABLE_UCOM_INTEN, USB2_INT_ENABLE_USBH_INTB_EN,
        USB2_INT_ENABLE_USBH_INTA_EN, USB2_OBINT_SESSVLDCHG,
        USB2_OBINT_IDDIGCHG, BIT]
    · rw [if_neg hc, host_mode_writes_eq, otg_initialization_eq]
      simp [USB2_INT_ENABLE_UCOM_INTEN, USB2_INT_ENABLE_USBH_INTB_EN,
        USB2_INT_ENABLE_USBH_INTA_EN, USB2_OBINT_SESSVLDCHG,
        USB2_OBINT_IDDIGCHG, BIT]
  · rw [otg_initialization_eq]
    simp [USB2_INT_ENABLE_UCOM_INTEN, USB2_INT_ENABLE_USBH_INTB_EN,
      USB2_INT_ENABLE_USBH_INTA_EN, BIT]
  · rw [otg_initialization_eq]
    simp [USB2_OBINT_SESSVLDCHG, USB2_OBINT_IDDIGCHG, BIT]
  · rw [otg_initialization_eq]
    exact set_sets_bit _ _ _ (by omega) (by simp [DRVVBUSSEL_testBit])
  · rw [otg_initialization_eq]
    exact clrset_clears_bit _ _ _ _
      (by simp [DP_RPD_testBit, DM_RPD_testBit, DPRPD_EN_testBit,
        DMRPD_EN_testBit])
      (by simp [DPRPD_EN_testBit, DMRPD_EN_testBit])
  · rw [otg_initialization_eq]
    exact clrset_clears_bit _ _ _ _
      (by simp [DP_RPD_testBit, DM_RPD_testBit, DPRPD_EN_testBit,
        DMRPD_EN_testBit])
      (by simp [DPRPD_EN_testBit, DMRPD_EN_testBit])
  · rw [otg_initialization_eq]
    exact clrset_sets_bit _ _ _ _ (by omega)
      (by simp [DPRPD_EN_testBit, DMRPD_EN_testBit])
  · rw [otg_initialization_eq]
    exact clrset_sets_bit _ _ _ _ (by omega)
      (by simp [DPRPD_EN_testBit, DMRPD_EN_testBit])

theorem set_mode_otg_arming_full_effects_witness :
    ((1 : Int) ≠ 0) ∧
    (((rcar_gen3_phy_phy_set_mode PhyMode.usb_otg 1 (sHost, [])).2.2).take 6 =
      [Event.write USB2_INT_ENABLE
        (USB2_INT_ENABLE_UCOM_INTEN ||| USB2_INT_ENABLE_USBH_INTB_EN |||
          USB2_INT_ENABLE_USBH_INTA_EN),
       Event.setbits USB2_VBCTRL USB2_VBCTRL_DRVVBUSSEL,
       Event.write USB2_OBINTSTA
        (USB2_OBINT_SESSVLDCHG ||| USB2_OBINT_IDDIGCHG),
       Event.setbits USB2_OBINTEN
        (USB2_OBINT_SESSVLDCHG ||| USB2_OBINT_IDDIGCHG),
       Event.setbits USB2_ADPCTRL USB2_ADPCTRL_IDPULLUP,
       Event.clrsetbits USB2_LINECTRL1
        (USB2_LINECTRL1_DP_RPD ||| USB2_LINECTRL1_DM_RPD |||
          USB2_LINECTRL1_DPRPD_EN ||| USB2_LINECTRL1_DMRPD_EN)
        (USB2_LINECTRL1_DPRPD_EN ||| USB2_LINECTRL1_DMRPD_EN)] ∧
     (otg_initialization (sHost, [])).1.int_enable =
       (USB2_INT_ENABLE_UCOM_INTEN ||| USB2_INT_ENABLE_USBH_INTB_EN |||
         USB2_INT_ENABLE_USBH_INTA_EN) ∧
     (otg_initialization (sHost, [])).1.obintsta =
       (USB2_OBINT_SESSVLDCHG ||| USB2_OBINT_IDDIGCHG) ∧
     (otg_initialization (sHost, [])).1.vbctrl.testBit 8 = true ∧
     (otg_initialization (sHost, [])).1.linectrl1.testBit 18 = false ∧
     (otg_initialization (sHost, [])).1.linectrl1.testBit 16 = false ∧
     (otg_initialization (sHost, [])).1.linectrl1.testBit 19 = true ∧
     (otg_initialization (sHost, [])).1.linectrl1.testBit 17 = true) :=
  ⟨by decide, set_mode_otg_arming_full_effects sHost 1 (by decide)⟩

end RcarGen3Phy
